import Mathlib

/-!
# Verification of the QuitNow health-progress computation engine

Shallow embedding of the temporal metrics engine of `src/main.js`:
`calculateTimeElapsed`, `calculateStats`, `calculateHealthRegeneration`
and `calculateHealthBenefits`, together with the static milestone and
benefit catalogs.

Modelling conventions:
* Instants are epoch milliseconds (`ℤ`).  `calculateStats`,
  `calculateHealthRegeneration` and `calculateHealthBenefits` build their
  timestamps with `Date.UTC(...)` from second-precision components; we take
  the two instants as the resulting integer epoch-millisecond values.
* JS numbers are modelled as `ℚ` (every value arising here is an exact
  decimal, so no floating-point rounding is observable in the claims).
* `Math.floor` is `Int.floor`, `Math.round x` is `⌊x + 1/2⌋`
  (round half toward `+∞`, as in JS), `Math.min` is `min`.
* `Array.prototype.sort` with comparator `(a, b) => a.targetDays - b.targetDays`
  is a stable ascending sort by `targetDays`; we use Mathlib's stable
  `List.insertionSort` (any two stable sorts agree on the result).
* The free-text `details` field of the benefit catalog plays no
  computational role anywhere in the engine and is omitted from the record.
-/

namespace QuitNow

/-- JS `Math.round`: round to the nearest integer, half toward `+∞`. -/
def jsRound (q : ℚ) : ℤ := ⌊q + 1/2⌋

/-- JS `Number.prototype.toFixed(2)` on the exact values arising here:
round to the nearest multiple of `1/100`, ties toward `+∞` (ECMA-262 picks
the larger candidate numerator).  The claims compare the rendered string
through this numeric value (`"70.00"` ↔ `70`). -/
def toFixed2 (q : ℚ) : ℚ := (jsRound (q * 100) : ℚ) / 100

/-- `main.js` line 79. -/
def DEFAULT_CIGARETTES_PER_DAY : ℚ := 20

/-- `main.js` line 80. -/
def DEFAULT_COST_PER_PACK : ℚ := 10

/-- `main.js` line 81. -/
def CIGARETTES_PER_PACK : ℚ := 20

/-- Fractional elapsed days: `diff / (1000 * 60 * 60 * 24)`
(`main.js` lines 222, 268, 345). -/
def elapsedDays (quitMs nowMs : ℤ) : ℚ :=
  ((nowMs - quitMs : ℤ) : ℚ) / (1000 * 60 * 60 * 24)

/-! ## calculateTimeElapsed (main.js lines 187-202) -/

structure ElapsedMetrics where
  days : ℤ
  hours : ℤ
  minutes : ℤ
  seconds : ℤ
  totalMs : ℤ
deriving DecidableEq

/-- `main.js` lines 187-202.  `diff` is in milliseconds; the JS modulo on
positive operands is `Int.emod`, and `Math.floor` of the real quotient is
`Int.floor` of the rational quotient. -/
def calculateTimeElapsed (quitMs nowMs : ℤ) : ElapsedMetrics :=
  let diff : ℤ := nowMs - quitMs
  if diff ≤ 0 then
    { days := 0, hours := 0, minutes := 0, seconds := 0, totalMs := 0 }
  else
    { days := ⌊(diff : ℚ) / (1000 * 60 * 60 * 24)⌋
      hours := ⌊((diff % (1000 * 60 * 60 * 24) : ℤ) : ℚ) / (1000 * 60 * 60)⌋
      minutes := ⌊((diff % (1000 * 60 * 60) : ℤ) : ℚ) / (1000 * 60)⌋
      seconds := ⌊((diff % (1000 * 60) : ℤ) : ℚ) / 1000⌋
      totalMs := diff }

/-! ## calculateStats (main.js lines 205-259) -/

structure ConsumptionStats where
  cigarettesAvoided : ℤ
  packsAvoided : ℤ
  moneySaved : ℚ
  daysQuit : ℤ
deriving DecidableEq

/-- `main.js` lines 208-215: a stored preference string overrides the
argument through `parseInt(stored) || fallback` (resp. `parseFloat`).
`none` models an absent/empty stored value (the `if (stored)` guard fails),
`some none` a stored string whose parse yields `NaN`, and `some (some v)` a
parse yielding the number `v`.  `NaN` and `0` are falsy, so they fall back;
every other parsed value — including negative ones — is used as-is. -/
def resolvePref : Option (Option ℚ) → ℚ → ℚ
  | none, fallback => fallback
  | some none, fallback => fallback
  | some (some v), fallback => if v = 0 then fallback else v

/-- `main.js` lines 205-259.  The `isNaN(days)` disjunct of the guard on
line 225 cannot fire over `ℚ` and is dropped; `diff ≤ 0 ∨ days < 0` is
kept as written. -/
def calculateStats (quitMs nowMs : ℤ) (storedCig storedCost : Option (Option ℚ))
    (cigarettesPerDay costPerPack : ℚ) : ConsumptionStats :=
  let cpd := resolvePref storedCig cigarettesPerDay
  let cpp := resolvePref storedCost costPerPack
  let diff : ℤ := nowMs - quitMs
  let days : ℚ := elapsedDays quitMs nowMs
  if diff ≤ 0 ∨ days < 0 then
    { cigarettesAvoided := 0, packsAvoided := 0, moneySaved := 0, daysQuit := 0 }
  else
    let maxDays : ℚ := 36500
    let safeDays : ℚ := min days maxDays
    let cigarettesAvoided : ℤ := ⌊safeDays * cpd⌋
    let packsAvoided : ℤ := ⌊(cigarettesAvoided : ℚ) / CIGARETTES_PER_PACK⌋
    let moneySaved : ℚ := toFixed2 (min ((packsAvoided : ℚ) * cpp) 999999999.99)
    { cigarettesAvoided := cigarettesAvoided
      packsAvoided := packsAvoided
      moneySaved := moneySaved
      daysQuit := ⌊safeDays⌋ }

/-! ## calculateHealthRegeneration (main.js lines 262-336) -/

structure Milestone where
  days : ℚ
  progress : ℚ
  name : String
deriving DecidableEq

/-- `main.js` lines 271-286: the aggregate health-regeneration table. -/
def milestones : List Milestone := [
  ⟨0.014, 2, "Heart rate normalizes"⟩,
  ⟨0.5, 5, "Blood pressure drops"⟩,
  ⟨1, 8, "Oxygen in blood rises"⟩,
  ⟨7, 15, "Breathing easier"⟩,
  ⟨14, 25, "Circulation improves"⟩,
  ⟨30, 40, "Lung function improves"⟩,
  ⟨60, 55, "Better lung function"⟩,
  ⟨90, 65, "Sperm quality improves"⟩,
  ⟨180, 75, "Depression risk decreases"⟩,
  ⟨365, 85, "Heart disease risk drops"⟩,
  ⟨730, 92, "Stroke risk drops"⟩,
  ⟨1825, 96, "Chronic bronchitis risk drops"⟩,
  ⟨3650, 98, "Lung cancer risk drops"⟩,
  ⟨5475, 100, "Heart disease risk ≈ non-smoker"⟩
]

/-- Total-function index into `milestones` (used only in theorem
statements; indices stay in range there). -/
def milestoneAt (i : ℕ) : Milestone := milestones.getD i ⟨0, 0, ""⟩

/-- `main.js` line 313: linear interpolation between two consecutive
milestones, the ratio clamped to at most 1 by `Math.min(1, …)`. -/
def interpolate (prev curr : Milestone) (days : ℚ) : ℚ :=
  prev.progress + (curr.progress - prev.progress) *
    min 1 ((days - prev.days) / (curr.days - prev.days))

/-- `main.js` lines 302-322: the sequential scan.  The accumulator carries
the percentage so far and the previously visited entry (`milestones[i-1]`);
the loop body either records `m.progress` and continues (`days >= m.days`)
or interpolates from the previous entry, reports `m` as the next milestone
and breaks.  Falling off the list leaves the percentage and no next
milestone. -/
def regenScan (days : ℚ) : Option Milestone → ℚ → List Milestone → ℚ × Option Milestone
  | _, pct, [] => (pct, none)
  | prev?, pct, m :: rest =>
    if m.days ≤ days then regenScan days (some m) m.progress rest
    else
      match prev? with
      | none => (pct, some m)
      | some prev => (interpolate prev m days, some m)

structure HealthRegeneration where
  percentage : ℤ
  days : ℤ
  nextMilestone : Option Milestone
  timeToNext : Option ℚ
deriving DecidableEq

/-- `main.js` lines 262-336. -/
def calculateHealthRegeneration (quitMs nowMs : ℤ) : HealthRegeneration :=
  let diff : ℤ := nowMs - quitMs
  let days : ℚ := elapsedDays quitMs nowMs
  if diff ≤ 0 ∨ days < 0 then
    { percentage := 0
      days := 0
      nextMilestone := milestones.head?
      timeToNext := milestones.head?.map fun m => m.days * (24 * 60 * 60 * 1000) }
  else
    let r := regenScan days none 0 milestones
    { percentage := min 100 (jsRound r.1)
      days := ⌊days⌋
      nextMilestone := r.2
      timeToNext := r.2.map fun m => (m.days - days) * (24 * 60 * 60 * 1000) }

/-! ## calculateHealthBenefits (main.js lines 339-470) -/

structure Benefit where
  name : String
  timeframe : String
  targetDays : ℚ
  category : String
deriving DecidableEq

set_option maxHeartbeats 1000000 in
/-- `main.js` lines 348-437: the individual benefit catalog (79 entries).
The free-text `details` field is omitted (see the header). -/
def allBenefits : List Benefit := [
  ⟨"Heart Rate Normalizes", "20 minutes", 0.014, "Heart"⟩,
  ⟨"Blood Pressure Drops", "12 hours", 0.5, "Heart"⟩,
  ⟨"Oxygen in Blood Rises", "1 day", 1, "Heart"⟩,
  ⟨"Heart Attack Risk Decreases", "1 day", 1, "Heart"⟩,
  ⟨"Circulation Improves", "2 weeks", 14, "Heart"⟩,
  ⟨"Reduced Blood Clots Risk", "2 weeks", 14, "Heart"⟩,
  ⟨"Arteries Less Inflamed", "2 weeks", 14, "Heart"⟩,
  ⟨"Coronary Heart Disease Risk ↓", "1 year", 365, "Heart"⟩,
  ⟨"Stroke Risk Drops", "2 years", 730, "Heart"⟩,
  ⟨"Heart Disease Risk ≈ Non-Smoker", "15 years", 5475, "Heart"⟩,
  ⟨"Breathing Easier", "1 week", 7, "Lung"⟩,
  ⟨"Less Coughing", "2 weeks", 14, "Lung"⟩,
  ⟨"Lung Cilia Start Repairing", "1 month", 30, "Lung"⟩,
  ⟨"Shortness of Breath ↓", "1 month", 30, "Lung"⟩,
  ⟨"Mucus Production Decreases", "1 month", 30, "Lung"⟩,
  ⟨"Lung Function Improves", "2 months", 60, "Lung"⟩,
  ⟨"Fewer Respiratory Infections", "2 months", 60, "Lung"⟩,
  ⟨"Asthma Flare-ups Decrease", "1 month", 30, "Lung"⟩,
  ⟨"Oxygen Efficiency ↑ During Exercise", "1 month", 30, "Lung"⟩,
  ⟨"COPD Progression Slows", "1 month", 30, "Lung"⟩,
  ⟨"Chronic Bronchitis Risk ↓", "5 years", 1825, "Lung"⟩,
  ⟨"Lung Cancer Risk Starts Dropping", "10 years", 3650, "Lung"⟩,
  ⟨"Lung Cancer Risk Continues ↓", "15 years", 5475, "Lung"⟩,
  ⟨"Sense of Taste Improves", "48 hours", 2, "Body"⟩,
  ⟨"Sense of Smell Improves", "48 hours", 2, "Body"⟩,
  ⟨"Body Odor Improves", "1 week", 7, "Body"⟩,
  ⟨"Energy Levels Increase", "2 weeks", 14, "Body"⟩,
  ⟨"Fatigue Decreases", "2 weeks", 14, "Body"⟩,
  ⟨"Better Wound Healing", "2 weeks", 14, "Body"⟩,
  ⟨"Protein Synthesis Improves", "2 weeks", 14, "Body"⟩,
  ⟨"Stronger Immune Function", "2 weeks", 14, "Body"⟩,
  ⟨"Muscle Recovery Enhances", "1 month", 30, "Body"⟩,
  ⟨"Healthier Skin Tone", "1 month", 30, "Body"⟩,
  ⟨"Hair Health Improves", "1 month", 30, "Body"⟩,
  ⟨"Voice Quality Improves", "1 month", 30, "Body"⟩,
  ⟨"Cholesterol Levels Improve", "1 month", 30, "Body"⟩,
  ⟨"Liver Function Improves", "1 month", 30, "Body"⟩,
  ⟨"Kidney Function Improves", "1 month", 30, "Body"⟩,
  ⟨"Joint Health Improves", "1 month", 30, "Body"⟩,
  ⟨"Gum Inflammation Decreases", "2 weeks", 14, "Body"⟩,
  ⟨"Teeth Health Improves", "2 weeks", 14, "Body"⟩,
  ⟨"Teeth Whitening Begins", "1 month", 30, "Body"⟩,
  ⟨"Stomach Acidity Normalizes", "2 weeks", 14, "Body"⟩,
  ⟨"Eye Health Improves", "1 month", 30, "Body"⟩,
  ⟨"DNA Damage Repair Begins", "1 month", 30, "Body"⟩,
  ⟨"DNA Repair Mechanisms Enhance", "3 months", 90, "Body"⟩,
  ⟨"Metabolism Normalizes", "3 months", 90, "Body"⟩,
  ⟨"Sleep Apnea Improves", "3 months", 90, "Body"⟩,
  ⟨"Sperm Count & Quality ↑", "3 months", 90, "Body"⟩,
  ⟨"Fewer Wrinkles Over Time", "1 year", 365, "Body"⟩,
  ⟨"Bone Density Loss Slows", "1 year", 365, "Body"⟩,
  ⟨"Fracture Risk Decreases", "1 year", 365, "Body"⟩,
  ⟨"Tooth Loss Risk Decreases", "1 year", 365, "Body"⟩,
  ⟨"Life Expectancy Increases", "1 year", 365, "Body"⟩,
  ⟨"Overall Mortality Risk ↓", "1 year", 365, "Body"⟩,
  ⟨"Premature Aging Slows", "1 year", 365, "Body"⟩,
  ⟨"Type 2 Diabetes Risk ↓", "2 years", 730, "Body"⟩,
  ⟨"Improved Libido", "2 weeks", 14, "Sex"⟩,
  ⟨"Erectile Function Improves", "2 weeks", 14, "Sex"⟩,
  ⟨"Stronger Boner", "1 month", 30, "Sex"⟩,
  ⟨"Better Blood Flow to Genitals", "2 weeks", 14, "Sex"⟩,
  ⟨"Increased Testosterone Production", "1 month", 30, "Sex"⟩,
  ⟨"Enhanced Sexual Stamina", "1 month", 30, "Sex"⟩,
  ⟨"Improved Sperm Motility", "3 months", 90, "Sex"⟩,
  ⟨"Reduced Erectile Dysfunction Risk", "3 months", 90, "Sex"⟩,
  ⟨"Better Sexual Performance", "3 months", 90, "Sex"⟩,
  ⟨"Increased Sexual Satisfaction", "6 months", 180, "Sex"⟩,
  ⟨"Libido Fully Recovered", "1 year", 365, "Sex"⟩,
  ⟨"Long-term Impotence Risk ↓", "2 years", 730, "Sex"⟩,
  ⟨"Anxiety About Health ↓", "Immediate", 0, "Mind"⟩,
  ⟨"Cravings Start to Decrease", "1 week", 7, "Mind"⟩,
  ⟨"Sleep Quality Improves", "1 week", 7, "Mind"⟩,
  ⟨"Confidence in Quitting ↑", "1 week", 7, "Mind"⟩,
  ⟨"Improved Concentration", "2 weeks", 14, "Mind"⟩,
  ⟨"Mood Stabilization", "2 weeks", 14, "Mind"⟩,
  ⟨"Reduced Stress from Nicotine", "2 weeks", 14, "Mind"⟩,
  ⟨"Mental Clarity Improves", "2 weeks", 14, "Mind"⟩,
  ⟨"Depression Risk Decreases", "6 months", 180, "Mind"⟩,
  ⟨"Cognitive Function Protects", "10 years", 3650, "Mind"⟩
]

/-- `main.js` line 455: `Math.min(100, Math.round((days / targetDays) * 100))`.
This line is only reached with `days > 0` (the degenerate branch returned
earlier).  JS evaluates `days / 0` for `days > 0` as `+∞` under IEEE-754
semantics, and `Math.min(100, Math.round(∞)) = 100`; rational division by
zero (`d / 0 = 0`) would misrepresent that, so the zero-divisor case is
spelled out. -/
def benefitProgressPercent (days targetDays : ℚ) : ℤ :=
  if targetDays = 0 then 100
  else min 100 (jsRound (days / targetDays * 100))

/-- The sort key relation of `main.js` lines 441 and 461:
comparator `(a, b) => a.targetDays - b.targetDays`, i.e. ascending by
`targetDays`. -/
def benefitLE (a b : Benefit) : Prop := a.targetDays ≤ b.targetDays

instance : DecidableRel benefitLE :=
  fun a b => inferInstanceAs (Decidable (a.targetDays ≤ b.targetDays))

instance : IsTotal Benefit benefitLE := ⟨fun a b => le_total a.targetDays b.targetDays⟩

instance : IsTrans Benefit benefitLE := ⟨fun _ _ _ h h₂ => le_trans h h₂⟩

/-- Intermediate record of `main.js` lines 451-458 (before the final
projection drops `targetDays`). -/
structure BenefitWithProgress where
  name : String
  timeframe : String
  targetDays : ℚ
  progress : ℤ
  category : String
deriving DecidableEq

/-- Ascending `targetDays` order on the intermediate records
(`main.js` line 461). -/
def benefitWPLE (a b : BenefitWithProgress) : Prop := a.targetDays ≤ b.targetDays

instance : DecidableRel benefitWPLE :=
  fun a b => inferInstanceAs (Decidable (a.targetDays ≤ b.targetDays))

/-- Output record (`main.js` lines 442-448 and 463-469); the free-text
`details` field is omitted. -/
structure BenefitProgress where
  name : String
  progress : ℤ
  timeframe : String
  category : String
deriving DecidableEq

/-- `main.js` lines 339-470. -/
def calculateHealthBenefits (quitMs nowMs : ℤ) : List BenefitProgress :=
  let diff : ℤ := nowMs - quitMs
  let days : ℚ := elapsedDays quitMs nowMs
  if diff ≤ 0 ∨ days < 0 then
    (List.insertionSort benefitLE allBenefits).map fun b =>
      { name := b.name, progress := 0, timeframe := b.timeframe, category := b.category }
  else
    let benefits : List BenefitWithProgress := allBenefits.map fun b =>
      { name := b.name, timeframe := b.timeframe, targetDays := b.targetDays
        progress := benefitProgressPercent days b.targetDays, category := b.category }
    (List.insertionSort benefitWPLE benefits).map fun b =>
      { name := b.name, progress := b.progress, timeframe := b.timeframe
        category := b.category }

/-- Per-benefit progress as a function of the raw inputs: the normal form
through which the theorems below describe `calculateHealthBenefits`. -/
def benefitProgressAt (quitMs nowMs : ℤ) (b : Benefit) : ℤ :=
  if nowMs - quitMs ≤ 0 then 0
  else benefitProgressPercent (elapsedDays quitMs nowMs) b.targetDays

/-- Strict ascending order of the milestone table: later entries have
strictly larger `days` and no smaller `progress` (§4.1 "sorted ascending by
construction", `cumulativeProgressPercent` non-decreasing). -/
def msLT (a b : Milestone) : Prop := a.days < b.days ∧ a.progress ≤ b.progress

instance : IsTrans Milestone msLT :=
  ⟨fun _ _ _ h h₂ => ⟨lt_trans h.1 h₂.1, le_trans h.2 h₂.2⟩⟩

/-! ## Basic lemmas -/

lemma msPerDay_pos : (0 : ℚ) < 1000 * 60 * 60 * 24 := by norm_num

lemma elapsedDays_neg_iff (q n : ℤ) : elapsedDays q n < 0 ↔ n - q < 0 := by
  constructor
  · intro h
    by_contra hc
    push_neg at hc
    exact absurd h (not_lt.2 (div_nonneg (by exact_mod_cast hc) (by norm_num)))
  · intro h
    exact div_neg_of_neg_of_pos (by exact_mod_cast h) msPerDay_pos

lemma degenerate_iff (q n : ℤ) :
    (n - q ≤ 0 ∨ elapsedDays q n < 0) ↔ n - q ≤ 0 := by
  constructor
  · rintro (h | h)
    · exact h
    · exact le_of_lt ((elapsedDays_neg_iff q n).1 h)
  · exact Or.inl

lemma elapsedDays_pos (q n : ℤ) (h : 0 < n - q) : 0 < elapsedDays q n :=
  div_pos (by exact_mod_cast h) msPerDay_pos

lemma elapsedDays_mono (q : ℤ) {n₁ n₂ : ℤ} (h : n₁ ≤ n₂) :
    elapsedDays q n₁ ≤ elapsedDays q n₂ := by
  unfold elapsedDays
  exact (div_le_div_iff_of_pos_right msPerDay_pos).2
    (by exact_mod_cast sub_le_sub_right h q)

lemma jsRound_mono {a b : ℚ} (h : a ≤ b) : jsRound a ≤ jsRound b :=
  Int.floor_le_floor (by linarith)

lemma jsRound_nonneg {a : ℚ} (h : 0 ≤ a) : 0 ≤ jsRound a :=
  Int.floor_nonneg.2 (by linarith)

lemma floor_cast_div_nat (a : ℤ) (d : ℕ) :
    ⌊(a : ℚ) / ((d : ℕ) : ℚ)⌋ = a / (d : ℤ) :=
  Rat.floor_intCast_div_natCast a d

/-! ## Claim theorems: elapsed time -/

/-- Claim C6: for `quitInstant ≤ now`, `calculateTimeElapsed` reports
`totalMs = now − quitInstant` exactly, and for a positive delta its
`days`/`hours`/`minutes`/`seconds` fields are the integer division/modulo
decomposition of the delta by 86 400 000 / 3 600 000 / 60 000 / 1 000
milliseconds. -/
theorem C6_elapsed_decomposition (q n : ℤ) (h : q ≤ n) :
    (calculateTimeElapsed q n).totalMs = n - q ∧
    (0 < n - q →
      (calculateTimeElapsed q n).days = (n - q) / 86400000 ∧
      (calculateTimeElapsed q n).hours = ((n - q) % 86400000) / 3600000 ∧
      (calculateTimeElapsed q n).minutes = ((n - q) % 3600000) / 60000 ∧
      (calculateTimeElapsed q n).seconds = ((n - q) % 60000) / 1000) := by
  by_cases hd : n - q ≤ 0
  · have hz : n - q = 0 := le_antisymm hd (by omega)
    simp only [calculateTimeElapsed, if_pos hd]
    exact ⟨hz.symm, fun hpos => absurd hpos (by omega)⟩
  · constructor
    · simp only [calculateTimeElapsed]
      rw [if_neg hd]
    · intro _
      simp only [calculateTimeElapsed, if_neg hd]
      refine ⟨?_, ?_, ?_, ?_⟩
      · have h1 : ((1000 * 60 * 60 * 24 : ℚ)) = ((86400000 : ℕ) : ℚ) := by norm_num
        rw [h1, floor_cast_div_nat]
        norm_num
      · have h1 : ((1000 * 60 * 60 : ℚ)) = ((3600000 : ℕ) : ℚ) := by norm_num
        rw [h1, floor_cast_div_nat]
        norm_num
      · have h1 : ((1000 * 60 : ℚ)) = ((60000 : ℕ) : ℚ) := by norm_num
        rw [h1, floor_cast_div_nat]
        norm_num
      · have h1 : ((1000 : ℚ)) = ((1000 : ℕ) : ℚ) := by norm_num
        rw [h1, floor_cast_div_nat]
        norm_num

/-- Witness for C6 at one day, one hour, one minute, one second and one
millisecond of elapsed time. -/
theorem C6_elapsed_decomposition_witness :
    (0 : ℤ) ≤ 90061001 ∧
    (calculateTimeElapsed 0 90061001).totalMs = 90061001 ∧
    (calculateTimeElapsed 0 90061001).days = 1 ∧
    (calculateTimeElapsed 0 90061001).hours = 1 ∧
    (calculateTimeElapsed 0 90061001).minutes = 1 ∧
    (calculateTimeElapsed 0 90061001).seconds = 1 := by
  have h := C6_elapsed_decomposition 0 90061001 (by norm_num)
  have h2 := h.2 (by norm_num)
  refine ⟨by norm_num, by simpa using h.1, ?_, ?_, ?_, ?_⟩
  · rw [h2.1]; decide
  · rw [h2.2.1]; decide
  · rw [h2.2.2.1]; decide
  · rw [h2.2.2.2]; decide

/-! ## Claim theorems: consumption statistics -/

lemma floor_eval {q : ℚ} {z : ℤ} (h1 : (z : ℚ) ≤ q) (h2 : q < z + 1) : ⌊q⌋ = z :=
  Int.floor_eq_iff.2 ⟨h1, h2⟩

/-- Evaluation of the 7-days-3-hours scenario with the default profile. -/
lemma stats_scenario :
    calculateStats 0 615600000 none none DEFAULT_CIGARETTES_PER_DAY DEFAULT_COST_PER_PACK
      = ⟨142, 7, 70, 7⟩ := by
  have hdays : elapsedDays 0 615600000 = 57/8 := by
    unfold elapsedDays; norm_num
  simp only [calculateStats, resolvePref, hdays]
  rw [if_neg (by norm_num)]
  have hmin : min ((57:ℚ)/8) 36500 = 57/8 := by norm_num
  rw [hmin]
  have hc : ⌊(57/8 : ℚ) * DEFAULT_CIGARETTES_PER_DAY⌋ = 142 := by
    apply floor_eval <;> norm_num [DEFAULT_CIGARETTES_PER_DAY]
  rw [hc]
  have hp : ⌊((142 : ℤ) : ℚ) / CIGARETTES_PER_PACK⌋ = 7 := by
    apply floor_eval <;> norm_num [CIGARETTES_PER_PACK]
  rw [hp]
  have hm : min (((7 : ℤ) : ℚ) * DEFAULT_COST_PER_PACK) 999999999.99 = 70 := by
    norm_num [DEFAULT_COST_PER_PACK]
  rw [hm]
  have hf : toFixed2 (70 : ℚ) = 70 := by
    unfold toFixed2 jsRound
    rw [show ((70:ℚ) * 100 + 1/2) = 14001/2 by norm_num]
    rw [show ⌊(14001/2 : ℚ)⌋ = 7000 from by apply floor_eval <;> norm_num]
    norm_num
  rw [hf]
  have hq : ⌊(57/8 : ℚ)⌋ = 7 := by
    apply floor_eval <;> norm_num
  rw [hq]

/-- Claim C2: for a positive delta, `calculateStats` computes
`cigarettesAvoided = ⌊d·cigarettesPerDay⌋`,
`packsAvoided = ⌊cigarettesAvoided / 20⌋`,
`moneySaved = min(packsAvoided · costPerPack, 999 999 999.99)` rendered at
two decimals, and `daysQuit = ⌊d⌋`, with `d` the elapsed days clamped to
36 500; at exactly 7 days 3 hours with the default profile it returns
142 / 7 / "70.00" / 7. -/
theorem C2_stats_formula (q n : ℤ) (sc scost : Option (Option ℚ))
    (cpdArg cppArg : ℚ) (h : 0 < n - q) :
    (calculateStats q n sc scost cpdArg cppArg).cigarettesAvoided
        = ⌊min (elapsedDays q n) 36500 * resolvePref sc cpdArg⌋ ∧
    (calculateStats q n sc scost cpdArg cppArg).packsAvoided
        = ⌊(((calculateStats q n sc scost cpdArg cppArg).cigarettesAvoided : ℤ) : ℚ) / 20⌋ ∧
    (calculateStats q n sc scost cpdArg cppArg).moneySaved
        = toFixed2 (min ((((calculateStats q n sc scost cpdArg cppArg).packsAvoided : ℤ) : ℚ)
            * resolvePref scost cppArg) 999999999.99) ∧
    (calculateStats q n sc scost cpdArg cppArg).daysQuit
        = ⌊min (elapsedDays q n) 36500⌋ ∧
    calculateStats 0 615600000 none none DEFAULT_CIGARETTES_PER_DAY DEFAULT_COST_PER_PACK
        = ⟨142, 7, 70, 7⟩ := by
  have hneg : ¬ (n - q ≤ 0 ∨ elapsedDays q n < 0) := by
    rw [degenerate_iff]; omega
  refine ⟨?_, ?_, ?_, ?_, stats_scenario⟩ <;>
    · simp only [calculateStats, if_neg hneg]
      try norm_num [CIGARETTES_PER_PACK]

/-- Witness for C2 at the 7-days-3-hours scenario inputs. -/
theorem C2_stats_formula_witness :
    (0 : ℤ) < 615600000 - 0 ∧
    calculateStats 0 615600000 none none DEFAULT_CIGARETTES_PER_DAY DEFAULT_COST_PER_PACK
      = ⟨142, 7, 70, 7⟩ :=
  ⟨by norm_num,
   (C2_stats_formula 0 615600000 none none DEFAULT_CIGARETTES_PER_DAY
      DEFAULT_COST_PER_PACK (by norm_num)).2.2.2.2⟩

/-- Counterexample to claim C3 as stated: a stored `cigarettesPerDay`
parsing to `-5` is non-positive, yet it is *not* replaced by the default
(`parseInt(stored) || fallback` only falls back on `NaN` and `0`), and one
elapsed day then yields `cigarettesAvoided = -5 < 0`. -/
theorem C3_counterexample :
    (calculateStats 0 86400000 (some (some (-5))) none
        DEFAULT_CIGARETTES_PER_DAY DEFAULT_COST_PER_PACK).cigarettesAvoided = -5 ∧
    ¬ (0 : ℤ) ≤ -5 := by
  constructor
  · have hdays : elapsedDays 0 86400000 = 1 := by unfold elapsedDays; norm_num
    simp only [calculateStats, resolvePref, hdays]
    rw [if_neg (by norm_num), if_neg (by norm_num)]
    have hmin : min (1 : ℚ) 36500 = 1 := by norm_num
    rw [hmin]
    apply floor_eval <;> norm_num
  · norm_num

lemma toFixed2_nonneg {q : ℚ} (h : 0 ≤ q) : 0 ≤ toFixed2 q := by
  unfold toFixed2
  have h2 : (0 : ℚ) ≤ (jsRound (q * 100) : ℚ) := by
    exact_mod_cast jsRound_nonneg (by positivity)
  exact div_nonneg h2 (by norm_num)

/-- Claim C3 (amended): an absent, non-numeric (`NaN`) or zero stored value
falls back to the default, but a *negative* parsed value is used as-is; the
four output fields are all non-negative whenever the two resolved profile
values are non-negative. -/
theorem C3_defaults_and_nonneg (q n : ℤ) (sc scost : Option (Option ℚ))
    (cpdArg cppArg : ℚ) (hc : 0 ≤ resolvePref sc cpdArg)
    (hp : 0 ≤ resolvePref scost cppArg) :
    (∀ f : ℚ, resolvePref none f = f ∧ resolvePref (some none) f = f ∧
      resolvePref (some (some 0)) f = f) ∧
    0 ≤ (calculateStats q n sc scost cpdArg cppArg).cigarettesAvoided ∧
    0 ≤ (calculateStats q n sc scost cpdArg cppArg).packsAvoided ∧
    0 ≤ (calculateStats q n sc scost cpdArg cppArg).moneySaved ∧
    0 ≤ (calculateStats q n sc scost cpdArg cppArg).daysQuit := by
  refine ⟨fun f => ⟨rfl, rfl, by simp [resolvePref]⟩, ?_⟩
  by_cases hneg : n - q ≤ 0 ∨ elapsedDays q n < 0
  · simp only [calculateStats, if_pos hneg]
    norm_num
  · have hdays : 0 ≤ elapsedDays q n := by
      rw [degenerate_iff] at hneg
      exact le_of_lt (elapsedDays_pos q n (by omega))
    have hsafe : 0 ≤ min (elapsedDays q n) 36500 := le_min hdays (by norm_num)
    have hcig : (0 : ℤ) ≤ ⌊min (elapsedDays q n) 36500 * resolvePref sc cpdArg⌋ :=
      Int.floor_nonneg.2 (mul_nonneg hsafe hc)
    have hpacks : (0 : ℤ) ≤
        ⌊((⌊min (elapsedDays q n) 36500 * resolvePref sc cpdArg⌋ : ℤ) : ℚ)
          / CIGARETTES_PER_PACK⌋ :=
      Int.floor_nonneg.2 (div_nonneg (by exact_mod_cast hcig)
        (by norm_num [CIGARETTES_PER_PACK]))
    simp only [calculateStats, if_neg hneg]
    refine ⟨hcig, hpacks, ?_, Int.floor_nonneg.2 hsafe⟩
    exact toFixed2_nonneg (le_min (mul_nonneg (by exact_mod_cast hpacks) hp)
      (by norm_num))

/-- Witness for the amended C3 with the default profile and one elapsed
day. -/
theorem C3_defaults_and_nonneg_witness :
    (0 : ℚ) ≤ resolvePref none DEFAULT_CIGARETTES_PER_DAY ∧
    (0 : ℚ) ≤ resolvePref none DEFAULT_COST_PER_PACK ∧
    0 ≤ (calculateStats 0 86400000 none none
          DEFAULT_CIGARETTES_PER_DAY DEFAULT_COST_PER_PACK).cigarettesAvoided ∧
    0 ≤ (calculateStats 0 86400000 none none
          DEFAULT_CIGARETTES_PER_DAY DEFAULT_COST_PER_PACK).moneySaved := by
  have h1 : (0 : ℚ) ≤ resolvePref none DEFAULT_CIGARETTES_PER_DAY := by
    norm_num [resolvePref, DEFAULT_CIGARETTES_PER_DAY]
  have h2 : (0 : ℚ) ≤ resolvePref none DEFAULT_COST_PER_PACK := by
    norm_num [resolvePref, DEFAULT_COST_PER_PACK]
  have h := C3_defaults_and_nonneg 0 86400000 none none
    DEFAULT_CIGARETTES_PER_DAY DEFAULT_COST_PER_PACK h1 h2
  exact ⟨h1, h2, h.2.1, h.2.2.2.1⟩

/-! ## Lemmas about the milestone scan -/

lemma regenScan_nil (d : ℚ) (p? : Option Milestone) (pct : ℚ) :
    regenScan d p? pct [] = (pct, none) := rfl

lemma regenScan_cons_ge (d : ℚ) (p? : Option Milestone) (pct : ℚ)
    (m : Milestone) (rest : List Milestone) (h : m.days ≤ d) :
    regenScan d p? pct (m :: rest) = regenScan d (some m) m.progress rest := by
  simp [regenScan, h]

lemma regenScan_cons_lt_none (d : ℚ) (pct : ℚ) (m : Milestone)
    (rest : List Milestone) (h : ¬ m.days ≤ d) :
    regenScan d none pct (m :: rest) = (pct, some m) := by
  simp [regenScan, h]

lemma regenScan_cons_lt_some (d : ℚ) (p : Milestone) (pct : ℚ) (m : Milestone)
    (rest : List Milestone) (h : ¬ m.days ≤ d) :
    regenScan d (some p) pct (m :: rest) = (interpolate p m d, some m) := by
  simp [regenScan, h]

lemma interpolate_mono (prev curr : Milestone) (hd : prev.days < curr.days)
    (hp : prev.progress ≤ curr.progress) {d₁ d₂ : ℚ} (h : d₁ ≤ d₂) :
    interpolate prev curr d₁ ≤ interpolate prev curr d₂ := by
  unfold interpolate
  have hr : (0 : ℚ) < curr.days - prev.days := by linarith
  have hdiv : (d₁ - prev.days) / (curr.days - prev.days)
      ≤ (d₂ - prev.days) / (curr.days - prev.days) :=
    (div_le_div_iff_of_pos_right hr).2 (by linarith)
  have hmin : min 1 ((d₁ - prev.days) / (curr.days - prev.days))
      ≤ min 1 ((d₂ - prev.days) / (curr.days - prev.days)) :=
    min_le_min (le_refl 1) hdiv
  nlinarith [hmin, sub_nonneg.2 hp]

lemma interpolate_le_curr (prev curr : Milestone)
    (hp : prev.progress ≤ curr.progress) (d : ℚ) :
    interpolate prev curr d ≤ curr.progress := by
  unfold interpolate
  have h1 : min 1 ((d - prev.days) / (curr.days - prev.days)) ≤ 1 := min_le_left _ _
  nlinarith [sub_nonneg.2 hp]

lemma interpolate_ge_prev (prev curr : Milestone)
    (hp : prev.progress ≤ curr.progress) (hd : prev.days < curr.days)
    {d : ℚ} (hdd : prev.days ≤ d) :
    prev.progress ≤ interpolate prev curr d := by
  unfold interpolate
  have hr : (0 : ℚ) < curr.days - prev.days := by linarith
  have h0 : 0 ≤ (d - prev.days) / (curr.days - prev.days) :=
    div_nonneg (by linarith) (le_of_lt hr)
  have h1 : 0 ≤ min 1 ((d - prev.days) / (curr.days - prev.days)) :=
    le_min (by norm_num) h0
  nlinarith [sub_nonneg.2 hp]

lemma interpolate_at_prev (prev curr : Milestone) :
    interpolate prev curr prev.days = prev.progress := by
  unfold interpolate
  rw [sub_self, zero_div]
  rw [min_eq_right (by norm_num : (0:ℚ) ≤ 1)]
  ring

lemma regenScan_fst_ge (d : ℚ) (l : List Milestone) : ∀ prev : Milestone,
    prev.days ≤ d → List.Chain' msLT (prev :: l) →
    prev.progress ≤ (regenScan d (some prev) prev.progress l).1 := by
  induction l with
  | nil => intro prev _ _; simp [regenScan_nil]
  | cons m rest ih =>
    intro prev hd hch
    rcases List.chain'_cons.1 hch with ⟨⟨hdays, hprog⟩, hch'⟩
    by_cases hm : m.days ≤ d
    · rw [regenScan_cons_ge d _ _ m rest hm]
      exact le_trans hprog (ih m hm hch')
    · rw [regenScan_cons_lt_some d prev _ m rest hm]
      exact interpolate_ge_prev prev m hprog hdays hd

lemma regenScan_fst_mono_some (d₁ d₂ : ℚ) (h12 : d₁ ≤ d₂) (l : List Milestone) :
    ∀ prev : Milestone, List.Chain' msLT (prev :: l) →
    (regenScan d₁ (some prev) prev.progress l).1
      ≤ (regenScan d₂ (some prev) prev.progress l).1 := by
  induction l with
  | nil => intro prev _; simp [regenScan_nil]
  | cons m rest ih =>
    intro prev hch
    rcases List.chain'_cons.1 hch with ⟨⟨hdays, hprog⟩, hch'⟩
    by_cases h1 : m.days ≤ d₁
    · rw [regenScan_cons_ge d₁ _ _ m rest h1,
        regenScan_cons_ge d₂ _ _ m rest (le_trans h1 h12)]
      exact ih m hch'
    · by_cases h2 : m.days ≤ d₂
      · rw [regenScan_cons_lt_some d₁ prev _ m rest h1,
          regenScan_cons_ge d₂ _ _ m rest h2]
        exact le_trans (interpolate_le_curr prev m hprog d₁)
          (regenScan_fst_ge d₂ rest m h2 hch')
      · rw [regenScan_cons_lt_some d₁ prev _ m rest h1,
          regenScan_cons_lt_some d₂ prev _ m rest h2]
        exact interpolate_mono prev m hdays hprog h12

lemma regenScan_fst_nonneg (d : ℚ) (l : List Milestone)
    (hch : List.Chain' msLT l) (hpos : ∀ m ∈ l, 0 ≤ m.progress) :
    0 ≤ (regenScan d none 0 l).1 := by
  cases l with
  | nil => simp [regenScan_nil]
  | cons m rest =>
    by_cases hm : m.days ≤ d
    · rw [regenScan_cons_ge d _ _ m rest hm]
      exact le_trans (hpos m (List.mem_cons_self m rest))
        (regenScan_fst_ge d rest m hm hch)
    · rw [regenScan_cons_lt_none d _ m rest hm]

lemma regenScan_fst_mono_none (d₁ d₂ : ℚ) (h12 : d₁ ≤ d₂) (l : List Milestone)
    (hch : List.Chain' msLT l) (hpos : ∀ m ∈ l, 0 ≤ m.progress) :
    (regenScan d₁ none 0 l).1 ≤ (regenScan d₂ none 0 l).1 := by
  cases l with
  | nil => simp [regenScan_nil]
  | cons m rest =>
    by_cases h1 : m.days ≤ d₁
    · rw [regenScan_cons_ge d₁ _ _ m rest h1,
        regenScan_cons_ge d₂ _ _ m rest (le_trans h1 h12)]
      exact regenScan_fst_mono_some d₁ d₂ h12 rest m hch
    · rw [regenScan_cons_lt_none d₁ _ m rest h1]
      by_cases h2 : m.days ≤ d₂
      · rw [regenScan_cons_ge d₂ _ _ m rest h2]
        exact le_trans (hpos m (List.mem_cons_self m rest))
          (regenScan_fst_ge d₂ rest m h2 hch)
      · rw [regenScan_cons_lt_none d₂ _ m rest h2]

lemma regenScan_all (d : ℚ) (l : List Milestone) : ∀ (p? : Option Milestone) (pct : ℚ),
    (∀ x ∈ l, x.days ≤ d) →
    regenScan d p? pct l = ((l.getLast?.map Milestone.progress).getD pct, none) := by
  induction l with
  | nil => intro p? pct _; simp [regenScan_nil]
  | cons m rest ih =>
    intro p? pct hall
    rw [regenScan_cons_ge d p? pct m rest (hall m (List.mem_cons_self m rest))]
    rw [ih (some m) m.progress (fun x hx => hall x (List.mem_cons_of_mem m hx))]
    cases rest with
    | nil => simp
    | cons r t =>
      obtain ⟨x, hx⟩ := Option.isSome_iff_exists.1
        (List.getLast?_isSome.2 (by simp) : ((r :: t).getLast?).isSome)
      simp [List.getLast?_cons_cons, hx]

lemma regenScan_between (d : ℚ) (l : List Milestone) :
    ∀ (i : ℕ) (p? : Option Milestone) (pct : ℚ) (hlen : i + 1 < l.length),
    List.Chain' msLT l →
    (l.get ⟨i, Nat.lt_of_succ_lt hlen⟩).days ≤ d →
    ¬ (l.get ⟨i + 1, hlen⟩).days ≤ d →
    regenScan d p? pct l
      = (interpolate (l.get ⟨i, Nat.lt_of_succ_lt hlen⟩) (l.get ⟨i + 1, hlen⟩) d,
         some (l.get ⟨i + 1, hlen⟩)) := by
  induction l with
  | nil =>
    intro i p? pct hlen
    simp at hlen
  | cons m rest ih =>
    intro i p? pct hlen hch hi hi1
    cases i with
    | zero =>
      cases rest with
      | nil => simp at hlen
      | cons c t =>
        rw [regenScan_cons_ge d p? pct m (c :: t) hi]
        rw [regenScan_cons_lt_some d m m.progress c t hi1]
        rfl
    | succ i' =>
      have hpw := List.chain'_iff_pairwise.1 hch
      have hlen' : i' + 1 < rest.length := by
        simpa using hlen
      have hmem : rest.get ⟨i', Nat.lt_of_succ_lt hlen'⟩ ∈ rest := List.get_mem _ _ _
      have hm : m.days ≤ d := by
        have hrel := (List.pairwise_cons.1 hpw).1 _ hmem
        exact le_trans (le_of_lt hrel.1) hi
      rw [regenScan_cons_ge d p? pct m rest hm]
      exact ih i' (some m) m.progress hlen' (List.Chain'.tail hch) hi hi1

/-! ## Facts about the milestone table -/

lemma milestones_length : milestones.length = 14 := rfl

lemma milestones_chain : List.Chain' msLT milestones := by
  simp only [milestones, List.chain'_cons, List.chain'_singleton, msLT, and_true]
  norm_num

lemma milestones_pairwise : List.Pairwise msLT milestones :=
  List.chain'_iff_pairwise.1 milestones_chain

lemma milestones_days_lt {i j : ℕ} (hi : i < milestones.length)
    (hj : j < milestones.length) (hij : i < j) :
    (milestones.get ⟨i, hi⟩).days < (milestones.get ⟨j, hj⟩).days :=
  ((List.pairwise_iff_get.1 milestones_pairwise) ⟨i, hi⟩ ⟨j, hj⟩ hij).1

lemma milestones_progress_nonneg : ∀ m ∈ milestones, 0 ≤ m.progress := by
  intro m hm
  fin_cases hm <;> norm_num

lemma milestones_progress_whole :
    ∀ m ∈ milestones, ∃ z : ℤ, (z : ℚ) = m.progress ∧ z ≤ 100 := by
  intro m hm
  fin_cases hm
  · exact ⟨2, by norm_num, by norm_num⟩
  · exact ⟨5, by norm_num, by norm_num⟩
  · exact ⟨8, by norm_num, by norm_num⟩
  · exact ⟨15, by norm_num, by norm_num⟩
  · exact ⟨25, by norm_num, by norm_num⟩
  · exact ⟨40, by norm_num, by norm_num⟩
  · exact ⟨55, by norm_num, by norm_num⟩
  · exact ⟨65, by norm_num, by norm_num⟩
  · exact ⟨75, by norm_num, by norm_num⟩
  · exact ⟨85, by norm_num, by norm_num⟩
  · exact ⟨92, by norm_num, by norm_num⟩
  · exact ⟨96, by norm_num, by norm_num⟩
  · exact ⟨98, by norm_num, by norm_num⟩
  · exact ⟨100, by norm_num, by norm_num⟩

lemma jsRound_intCast (z : ℤ) : jsRound ((z : ℚ)) = z := by
  unfold jsRound
  apply floor_eval
  · linarith
  · have h1 : ((z + 1 : ℤ) : ℚ) = (z : ℚ) + 1 := by push_cast; ring
    linarith

lemma milestoneAt_eq_get (i : ℕ) (h : i < milestones.length) :
    milestoneAt i = milestones.get ⟨i, h⟩ := by
  unfold milestoneAt
  exact List.getD_eq_getElem _ _ h

/-! ## Field lemmas for calculateHealthRegeneration -/

lemma regen_deg (q n : ℤ) (h : n - q ≤ 0) :
    calculateHealthRegeneration q n =
      ⟨0, 0, milestones.head?,
        milestones.head?.map fun m => m.days * (24 * 60 * 60 * 1000)⟩ := by
  simp only [calculateHealthRegeneration, if_pos (Or.inl h)]

lemma regen_percentage_pos (q n : ℤ) (h : 0 < n - q) :
    (calculateHealthRegeneration q n).percentage
      = min 100 (jsRound (regenScan (elapsedDays q n) none 0 milestones).1) := by
  have hneg : ¬ (n - q ≤ 0 ∨ elapsedDays q n < 0) := by
    rw [degenerate_iff]; omega
  simp only [calculateHealthRegeneration, if_neg hneg]

/-- The scan evaluated exactly at the `i`-th milestone's `targetDays` yields
exactly that milestone's cumulative progress. -/
lemma regenScan_at_index (i : ℕ) (h : i < milestones.length) :
    (regenScan ((milestones.get ⟨i, h⟩).days) none 0 milestones).1
      = (milestones.get ⟨i, h⟩).progress := by
  by_cases hi : i + 1 < milestones.length
  · rw [regenScan_between ((milestones.get ⟨i, h⟩).days) milestones i none 0 hi
      milestones_chain (le_refl _)
      (not_le.2 (milestones_days_lt (Nat.lt_of_succ_lt hi) hi (Nat.lt_succ_self i)))]
    exact interpolate_at_prev _ _
  · have h13 : i = 13 := by
      have := milestones_length
      omega
    subst h13
    have hgd : milestones.get ⟨13, h⟩
        = ⟨5475, 100, "Heart disease risk ≈ non-smoker"⟩ := rfl
    rw [hgd]
    have hall : ∀ x ∈ milestones,
        x.days ≤ (Milestone.days ⟨5475, 100, "Heart disease risk ≈ non-smoker"⟩) := by
      intro x hx
      fin_cases hx <;> norm_num
    rw [regenScan_all _ _ none 0 hall]
    rfl

/-- Claim C8: at `days` exactly equal to a milestone's `targetDays` the
aggregate percentage equals that milestone's `cumulativeProgressPercent`,
and at `days` exactly equal to a benefit's positive `targetDays` that
benefit's progress is exactly 100. -/
theorem C8_boundary_exact :
    (∀ m ∈ milestones, ∀ q n : ℤ, 0 < n - q → elapsedDays q n = m.days →
      (((calculateHealthRegeneration q n).percentage : ℤ) : ℚ) = m.progress) ∧
    (∀ b ∈ allBenefits, 0 < b.targetDays → ∀ q n : ℤ, 0 < n - q →
      elapsedDays q n = b.targetDays →
      benefitProgressPercent (elapsedDays q n) b.targetDays = 100) := by
  constructor
  · intro m hm q n hq hd
    obtain ⟨⟨i, hilt⟩, hget⟩ := List.mem_iff_get.1 hm
    rw [regen_percentage_pos q n hq, hd, ← hget, regenScan_at_index i hilt]
    obtain ⟨z, hz, h100⟩ := milestones_progress_whole _ (List.get_mem _ _ _)
    rw [← hz, jsRound_intCast, min_eq_right h100, hz]
  · intro b _ htb q n _ hd
    unfold benefitProgressPercent
    rw [if_neg (ne_of_gt htb)]
    rw [hd, div_self (ne_of_gt htb), one_mul]
    rw [show (100 : ℚ) = ((100 : ℤ) : ℚ) from by norm_num, jsRound_intCast]
    norm_num

/-- Witness for C8: at exactly 14 elapsed days the aggregate percentage is
25, and the 14-day benefit progress is 100. -/
theorem C8_boundary_exact_witness :
    (((calculateHealthRegeneration 0 1209600000).percentage : ℤ) : ℚ) = 25 ∧
    benefitProgressPercent (elapsedDays 0 1209600000) 14 = 100 := by
  have hmem : (⟨14, 25, "Circulation improves"⟩ : Milestone) ∈ milestones := by
    simp [milestones]
  have hd : elapsedDays 0 1209600000
      = (Milestone.days ⟨14, 25, "Circulation improves"⟩) := by
    unfold elapsedDays; norm_num
  have hbmem : (⟨"Improved Libido", "2 weeks", 14, "Sex"⟩ : Benefit) ∈ allBenefits := by
    simp [allBenefits]
  constructor
  · exact (C8_boundary_exact.1 _ hmem 0 1209600000 (by norm_num) hd)
  · exact (C8_boundary_exact.2 _ hbmem (by norm_num) 0 1209600000 (by norm_num)
      (by unfold elapsedDays; norm_num))

/-- Claim C10: below the first table entry (`0 < d < 0.014`) no
interpolation happens — the percentage is exactly 0, the next milestone is
the first entry and the time to it is `(0.014 − d)` days in milliseconds. -/
theorem C10_below_first_milestone (q n : ℤ) (h : 0 < n - q)
    (h2 : elapsedDays q n < 0.014) :
    calculateHealthRegeneration q n =
      ⟨0, 0, some ⟨0.014, 2, "Heart rate normalizes"⟩,
        some ((0.014 - elapsedDays q n) * (24 * 60 * 60 * 1000))⟩ := by
  have hneg : ¬ (n - q ≤ 0 ∨ elapsedDays q n < 0) := by
    rw [degenerate_iff]; omega
  simp only [calculateHealthRegeneration, if_neg hneg]
  have hm : ¬ ((⟨0.014, 2, "Heart rate normalizes"⟩ : Milestone).days
      ≤ elapsedDays q n) := not_le.2 h2
  have hscan : regenScan (elapsedDays q n) none 0 milestones
      = (0, some ⟨0.014, 2, "Heart rate normalizes"⟩) := by
    rw [show milestones = (⟨0.014, 2, "Heart rate normalizes"⟩ : Milestone)
        :: milestones.tail from rfl]
    exact regenScan_cons_lt_none _ _ _ _ hm
  rw [hscan]
  have hpct : min 100 (jsRound (0 : ℚ)) = 0 := by
    rw [show (0 : ℚ) = ((0 : ℤ) : ℚ) from by norm_num, jsRound_intCast]
    norm_num
  have hdays : ⌊elapsedDays q n⌋ = 0 := by
    apply floor_eval
    · exact_mod_cast le_of_lt (elapsedDays_pos q n h)
    · push_cast
      linarith
  simp [HealthRegeneration.mk.injEq, hpct, hdays]

/-- Witness for C10 at ten elapsed minutes. -/
theorem C10_below_first_milestone_witness :
    (0 : ℤ) < 600000 - 0 ∧ elapsedDays 0 600000 < 0.014 ∧
    calculateHealthRegeneration 0 600000 =
      ⟨0, 0, some ⟨0.014, 2, "Heart rate normalizes"⟩,
        some ((0.014 - elapsedDays 0 600000) * (24 * 60 * 60 * 1000))⟩ := by
  have h2 : elapsedDays 0 600000 < 0.014 := by
    unfold elapsedDays; norm_num
  exact ⟨by norm_num, h2, C10_below_first_milestone 0 600000 (by norm_num) h2⟩

/-- Claim C1: for positive elapsed days `d`, the aggregate percentage is
the last entry's progress value (100) once `d` reaches its `targetDays`,
is the rounded, 100-capped linear interpolation between the two
surrounding entries when `d` lies strictly between consecutive entries,
and equals 32 at exactly 21 elapsed days. -/
theorem C1_health_regeneration (q n : ℤ) (h : 0 < n - q) :
    ((milestoneAt 13).days ≤ elapsedDays q n →
      (calculateHealthRegeneration q n).percentage = 100) ∧
    (∀ i : Fin 13,
      (milestoneAt i).days < elapsedDays q n →
      elapsedDays q n < (milestoneAt ((i : ℕ) + 1)).days →
      (calculateHealthRegeneration q n).percentage =
        min 100 (jsRound ((milestoneAt i).progress +
          ((milestoneAt ((i : ℕ) + 1)).progress - (milestoneAt i).progress) *
            ((elapsedDays q n - (milestoneAt i).days) /
              ((milestoneAt ((i : ℕ) + 1)).days - (milestoneAt i).days))))) ∧
    (elapsedDays q n = 21 → (calculateHealthRegeneration q n).percentage = 32) := by
  have hperc := regen_percentage_pos q n h
  have hpart2 : ∀ i : Fin 13,
      (milestoneAt i).days < elapsedDays q n →
      elapsedDays q n < (milestoneAt ((i : ℕ) + 1)).days →
      (calculateHealthRegeneration q n).percentage =
        min 100 (jsRound ((milestoneAt i).progress +
          ((milestoneAt ((i : ℕ) + 1)).progress - (milestoneAt i).progress) *
            ((elapsedDays q n - (milestoneAt i).days) /
              ((milestoneAt ((i : ℕ) + 1)).days - (milestoneAt i).days)))) := by
    intro i h1 h2
    have hlen : (i : ℕ) + 1 < milestones.length := by
      have := i.isLt
      rw [milestones_length]
      omega
    have hgi := milestoneAt_eq_get (i : ℕ) (Nat.lt_of_succ_lt hlen)
    have hgi1 := milestoneAt_eq_get ((i : ℕ) + 1) hlen
    rw [hgi] at h1
    rw [hgi1] at h2
    have hscan := regenScan_between (elapsedDays q n) milestones (i : ℕ) none 0 hlen
      milestones_chain (le_of_lt h1) (not_le.2 h2)
    rw [hperc, hscan, hgi, hgi1]
    have hdpos : (0 : ℚ) <
        (milestones.get ⟨(i : ℕ) + 1, hlen⟩).days
          - (milestones.get ⟨(i : ℕ), Nat.lt_of_succ_lt hlen⟩).days := by
      have := milestones_days_lt (Nat.lt_of_succ_lt hlen) hlen (Nat.lt_succ_self _)
      linarith
    have hratio : (elapsedDays q n
          - (milestones.get ⟨(i : ℕ), Nat.lt_of_succ_lt hlen⟩).days)
        / ((milestones.get ⟨(i : ℕ) + 1, hlen⟩).days
          - (milestones.get ⟨(i : ℕ), Nat.lt_of_succ_lt hlen⟩).days) ≤ 1 := by
      rw [div_le_one hdpos]
      linarith
    unfold interpolate
    rw [min_eq_right hratio]
  have hpart1 : (milestoneAt 13).days ≤ elapsedDays q n →
      (calculateHealthRegeneration q n).percentage = 100 := by
    intro hlast
    have h13 : milestoneAt 13 = ⟨5475, 100, "Heart disease risk ≈ non-smoker"⟩ := rfl
    rw [h13] at hlast
    have h5 : (5475 : ℚ) ≤ elapsedDays q n := hlast
    have hall : ∀ x ∈ milestones, x.days ≤ elapsedDays q n := by
      intro x hx
      fin_cases hx <;> dsimp only <;> linarith
    rw [hperc, regenScan_all _ _ none 0 hall]
    rw [show (milestones.getLast?.map Milestone.progress).getD 0 = (100 : ℚ) from rfl]
    rw [show (100 : ℚ) = ((100 : ℤ) : ℚ) from by norm_num, jsRound_intCast]
    norm_num
  have hpart3 : elapsedDays q n = 21 →
      (calculateHealthRegeneration q n).percentage = 32 := by
    intro h21
    have hm4 : milestoneAt 4 = ⟨14, 25, "Circulation improves"⟩ := rfl
    have hm5 : milestoneAt 5 = ⟨30, 40, "Lung function improves"⟩ := rfl
    have h1 : (milestoneAt 4).days < elapsedDays q n := by
      rw [hm4, h21]; norm_num
    have h2 : elapsedDays q n < (milestoneAt 5).days := by
      rw [hm5, h21]; norm_num
    have hv := hpart2 ⟨4, by norm_num⟩ h1 h2
    rw [hv, hm4, hm5, h21]
    dsimp only
    rw [show (25 : ℚ) + ((40 : ℚ) - 25) * (((21 : ℚ) - 14) / ((30 : ℚ) - 14))
        = 505/16 from by norm_num]
    rw [show jsRound (505/16 : ℚ) = 32 from by
      unfold jsRound; apply floor_eval <;> norm_num]
    norm_num
  exact ⟨hpart1, hpart2, hpart3⟩

/-- Witness for C1 at exactly 21 elapsed days. -/
theorem C1_health_regeneration_witness :
    (0 : ℤ) < 1814400000 - 0 ∧
    (calculateHealthRegeneration 0 1814400000).percentage = 32 := by
  have h21 : elapsedDays 0 1814400000 = 21 := by
    unfold elapsedDays; norm_num
  exact ⟨by norm_num, (C1_health_regeneration 0 1814400000 (by norm_num)).2.2 h21⟩

/-! ## Lemmas about the benefit catalog and its sort -/

lemma allBenefits_targetDays_nonneg : ∀ b ∈ allBenefits, 0 ≤ b.targetDays := by
  simp only [allBenefits, List.forall_mem_cons]
  norm_num

lemma sorted_insertionSort_benefits :
    List.Pairwise benefitLE (List.insertionSort benefitLE allBenefits) :=
  List.sorted_insertionSort benefitLE allBenefits

/-- Normal form of `calculateHealthBenefits`: in both branches the output
is the catalog sorted ascending by `targetDays`, each entry carrying
`benefitProgressAt`. -/
lemma healthBenefits_eq_map (q n : ℤ) :
    calculateHealthBenefits q n
      = (List.insertionSort benefitLE allBenefits).map fun b =>
          { name := b.name, progress := benefitProgressAt q n b,
            timeframe := b.timeframe, category := b.category } := by
  by_cases hdeg : n - q ≤ 0 ∨ elapsedDays q n < 0
  · simp only [calculateHealthBenefits, if_pos hdeg]
    have h0 : n - q ≤ 0 := (degenerate_iff q n).1 hdeg
    apply List.map_congr_left
    intro b _
    simp [benefitProgressAt, show n ≤ q from by omega]
  · have h0 : ¬ (n - q ≤ 0) := by rw [degenerate_iff] at hdeg; exact hdeg
    simp only [calculateHealthBenefits, if_neg hdeg]
    rw [← List.map_insertionSort benefitLE benefitWPLE
      (fun b : Benefit =>
        ({ name := b.name, timeframe := b.timeframe, targetDays := b.targetDays,
           progress := benefitProgressPercent (elapsedDays q n) b.targetDays,
           category := b.category } : BenefitWithProgress)) allBenefits
      (fun _ _ _ _ => Iff.rfl)]
    rw [List.map_map]
    apply List.map_congr_left
    intro b _
    simp [Function.comp, benefitProgressAt, show ¬ n ≤ q from by omega]

lemma benefitProgressPercent_nonneg {d t : ℚ} (hd : 0 ≤ d) (ht : 0 ≤ t) :
    0 ≤ benefitProgressPercent d t := by
  unfold benefitProgressPercent
  by_cases h : t = 0
  · rw [if_pos h]; norm_num
  · rw [if_neg h]
    exact le_min (by norm_num)
      (jsRound_nonneg (by positivity))

lemma benefitProgressPercent_mono {d₁ d₂ t : ℚ} (h : d₁ ≤ d₂) (ht : 0 ≤ t) :
    benefitProgressPercent d₁ t ≤ benefitProgressPercent d₂ t := by
  unfold benefitProgressPercent
  by_cases h0 : t = 0
  · simp [if_pos h0]
  · rw [if_neg h0, if_neg h0]
    have ht' : 0 < t := lt_of_le_of_ne ht (Ne.symm h0)
    refine min_le_min (le_refl 100) (jsRound_mono ?_)
    exact mul_le_mul_of_nonneg_right ((div_le_div_iff_of_pos_right ht').2 h) (by norm_num)

lemma benefitProgressAt_le_100 (q n : ℤ) (b : Benefit) :
    benefitProgressAt q n b ≤ 100 := by
  unfold benefitProgressAt
  by_cases h : n - q ≤ 0
  · rw [if_pos h]; norm_num
  · rw [if_neg h]
    unfold benefitProgressPercent
    by_cases h0 : b.targetDays = 0
    · rw [if_pos h0]
    · rw [if_neg h0]
      exact min_le_left _ _

lemma benefitProgressAt_mono (q : ℤ) {n₁ n₂ : ℤ} (h : n₁ ≤ n₂) (b : Benefit)
    (hb : 0 ≤ b.targetDays) :
    benefitProgressAt q n₁ b ≤ benefitProgressAt q n₂ b := by
  unfold benefitProgressAt
  by_cases h1 : n₁ - q ≤ 0
  · rw [if_pos h1]
    by_cases h2 : n₂ - q ≤ 0
    · rw [if_pos h2]
    · rw [if_neg h2]
      exact benefitProgressPercent_nonneg
        (le_of_lt (elapsedDays_pos q n₂ (by omega))) hb
  · have h2 : ¬ n₂ - q ≤ 0 := by omega
    rw [if_neg h1, if_neg h2]
    exact benefitProgressPercent_mono (elapsedDays_mono q h) hb

/-! ## Claim theorems: benefits, sorting, monotonicity, degenerate case -/

/-- Claim C9: `calculateHealthBenefits` always returns the catalog sorted
ascending by `targetDays`, for every pair of instants (degenerate case
included). -/
theorem C9_sorted_output (q n : ℤ) :
    calculateHealthBenefits q n
      = (List.insertionSort benefitLE allBenefits).map (fun b =>
          { name := b.name, progress := benefitProgressAt q n b,
            timeframe := b.timeframe, category := b.category }) ∧
    List.Pairwise (fun a b : Benefit => a.targetDays ≤ b.targetDays)
      (List.insertionSort benefitLE allBenefits) :=
  ⟨healthBenefits_eq_map q n, sorted_insertionSort_benefits⟩

/-- Claim C4: the `targetDays = 0` ("Immediate") benefit reports exactly
100 whenever elapsed time is positive and 0 otherwise, with no error — the
zero divisor is absorbed by the IEEE `days / 0 = ∞` convention modelled in
`benefitProgressPercent`; every other benefit reports
`min(100, round(days / targetDays · 100))`. -/
theorem C4_immediate_benefit (q n : ℤ) :
    (∀ b ∈ allBenefits, b.targetDays = 0 →
      benefitProgressAt q n b = if 0 < n - q then 100 else 0) ∧
    (∀ b ∈ allBenefits, b.targetDays ≠ 0 → 0 < n - q →
      benefitProgressAt q n b
        = min 100 (jsRound (elapsedDays q n / b.targetDays * 100))) ∧
    calculateHealthBenefits q n
      = (List.insertionSort benefitLE allBenefits).map (fun b =>
          { name := b.name, progress := benefitProgressAt q n b,
            timeframe := b.timeframe, category := b.category }) := by
  refine ⟨?_, ?_, healthBenefits_eq_map q n⟩
  · intro b _ ht
    unfold benefitProgressAt benefitProgressPercent
    rw [ht]
    by_cases hp : n - q ≤ 0
    · rw [if_pos hp, if_neg (by omega)]
    · rw [if_neg hp, if_pos rfl, if_pos (by omega)]
  · intro b _ ht hpos
    unfold benefitProgressAt benefitProgressPercent
    rw [if_neg (by omega), if_neg ht]

/-- Witness for C4: the "Immediate" benefit at one elapsed day. -/
theorem C4_immediate_benefit_witness :
    benefitProgressAt 0 86400000
      ⟨"Anxiety About Health ↓", "Immediate", 0, "Mind"⟩ = 100 := by
  have hmem : (⟨"Anxiety About Health ↓", "Immediate", 0, "Mind"⟩ : Benefit)
      ∈ allBenefits := by
    simp [allBenefits]
  have h := (C4_immediate_benefit 0 86400000).1 _ hmem rfl
  rw [h, if_pos (by norm_num)]

/-- Claim C7: for a fixed quit instant, the aggregate percentage and every
individual benefit's progress are non-decreasing in `now`, saturating at
100. -/
theorem C7_monotonicity (q n₁ n₂ : ℤ) (h : n₁ ≤ n₂) :
    (calculateHealthRegeneration q n₁).percentage
      ≤ (calculateHealthRegeneration q n₂).percentage ∧
    (calculateHealthRegeneration q n₂).percentage ≤ 100 ∧
    List.Forall₂ (fun a b : BenefitProgress => a.progress ≤ b.progress ∧ b.progress ≤ 100)
      (calculateHealthBenefits q n₁) (calculateHealthBenefits q n₂) := by
  refine ⟨?_, ?_, ?_⟩
  · by_cases h2 : n₂ - q ≤ 0
    · have h1 : n₁ - q ≤ 0 := by omega
      rw [regen_deg q n₁ h1, regen_deg q n₂ h2]
    · by_cases h1 : n₁ - q ≤ 0
      · rw [regen_deg q n₁ h1, regen_percentage_pos q n₂ (by omega)]
        exact le_min (by norm_num)
          (jsRound_nonneg (regenScan_fst_nonneg _ _ milestones_chain
            milestones_progress_nonneg))
      · rw [regen_percentage_pos q n₁ (by omega),
          regen_percentage_pos q n₂ (by omega)]
        exact min_le_min (le_refl 100)
          (jsRound_mono (regenScan_fst_mono_none _ _ (elapsedDays_mono q h)
            milestones milestones_chain milestones_progress_nonneg))
  · by_cases h2 : n₂ - q ≤ 0
    · rw [regen_deg q n₂ h2]
      norm_num
    · rw [regen_percentage_pos q n₂ (by omega)]
      exact min_le_left _ _
  · rw [healthBenefits_eq_map q n₁, healthBenefits_eq_map q n₂]
    rw [List.forall₂_map_left_iff, List.forall₂_map_right_iff, List.forall₂_same]
    intro b hb
    have hmem : b ∈ allBenefits := (List.mem_insertionSort benefitLE).1 hb
    exact ⟨benefitProgressAt_mono q h b (allBenefits_targetDays_nonneg b hmem),
      benefitProgressAt_le_100 q n₂ b⟩

/-- Witness for C7 comparing zero and one elapsed day. -/
theorem C7_monotonicity_witness :
    (0 : ℤ) ≤ 86400000 ∧
    (calculateHealthRegeneration 0 0).percentage
      ≤ (calculateHealthRegeneration 0 86400000).percentage ∧
    (calculateHealthRegeneration 0 86400000).percentage ≤ 100 := by
  have h := C7_monotonicity 0 0 86400000 (by norm_num)
  exact ⟨by norm_num, h.1, h.2.1⟩

/-- Claim C5: a quit instant in the future produces the zero/degenerate
result everywhere: all-zero elapsed metrics, all-zero statistics,
percentage 0 with the first table entry as next milestone, and every
benefit at progress 0, sorted ascending by `targetDays` — with no error
anywhere. -/
theorem C5_future_quit (q n : ℤ) (h : n < q) (sc scost : Option (Option ℚ))
    (cpdArg cppArg : ℚ) :
    calculateTimeElapsed q n = ⟨0, 0, 0, 0, 0⟩ ∧
    calculateStats q n sc scost cpdArg cppArg = ⟨0, 0, 0, 0⟩ ∧
    (calculateHealthRegeneration q n).percentage = 0 ∧
    (calculateHealthRegeneration q n).nextMilestone
      = some ⟨0.014, 2, "Heart rate normalizes"⟩ ∧
    calculateHealthBenefits q n
      = (List.insertionSort benefitLE allBenefits).map (fun b =>
          { name := b.name, progress := 0, timeframe := b.timeframe,
            category := b.category }) ∧
    List.Pairwise (fun a b : Benefit => a.targetDays ≤ b.targetDays)
      (List.insertionSort benefitLE allBenefits) := by
  have h0 : n - q ≤ 0 := by omega
  refine ⟨?_, ?_, ?_, ?_, ?_, sorted_insertionSort_benefits⟩
  · simp only [calculateTimeElapsed, if_pos h0]
  · simp only [calculateStats, if_pos (Or.inl h0)]
  · rw [regen_deg q n h0]
  · rw [regen_deg q n h0]
    rfl
  · simp only [calculateHealthBenefits, if_pos (Or.inl h0)]

/-- Witness for C5 with the quit instant one day in the future. -/
theorem C5_future_quit_witness :
    (0 : ℤ) < 86400000 ∧
    calculateTimeElapsed 86400000 0 = ⟨0, 0, 0, 0, 0⟩ ∧
    (calculateHealthRegeneration 86400000 0).percentage = 0 := by
  have h := C5_future_quit 86400000 0 (by norm_num) none none
    DEFAULT_CIGARETTES_PER_DAY DEFAULT_COST_PER_PACK
  exact ⟨by norm_num, h.1, h.2.2.1⟩

end QuitNow
